import Mathlib

/-!
Verification development for the `fast_gypsum_dl` molecule-preparation
pipeline (gypsum/Start.py, gypsum/Steps/IO/LoadFiles.py,
gypsum/Steps/SMILES/AddHydrogens.py).

The Python code is shallowly embedded: Python dictionaries of scalar
configuration values become association lists over `PyVal`; the external
cheminformatics engine (RDKit, Dimorphite-DL) is abstracted into oracle
functions supplied as parameters; file-system and logging side effects are
dropped, with the data they would carry (file lines, written failure records)
made explicit as values.  Classes that the repository uses but does not
define (MolContainer, MyMol, the Utils helpers) are modelled from the
specification; each such definition says so in its doc comment.
-/

/-! ## Python scalar values and their types (Start.py configuration model)

Python configuration values as used by `set_parameters`.  Only the scalar
types that occur in the default parameter dictionary are represented
(int, float, bool, str); container-typed user values (lists, dicts, None)
fail `isinstance` against every default and are rejected by the same
TypeError path as any other mismatch, so they are omitted from the value
model.  Float payloads are carried as rationals: no floating-point
arithmetic is ever performed on them by the modelled code.  -/

inductive PyVal where
  | int (n : Int)
  | float (q : ℚ)
  | bool (b : Bool)
  | str (s : String)
deriving DecidableEq, Inhabited

inductive PyType where
  | int
  | float
  | bool
  | str
deriving DecidableEq, Inhabited

/-- Python's `type(v)`: note that `type(True)` is `bool`, not `int`. -/
def pytype : PyVal → PyType
  | .int _ => .int
  | .float _ => .float
  | .bool _ => .bool
  | .str _ => .str

/-- Python's `isinstance(v, t)` for the four scalar types: `bool` is a
subclass of `int`, so a Bool is an instance of both `bool` and `int`. -/
def isinstance : PyVal → PyType → Bool
  | .int _, .int => true
  | .bool _, .int => true
  | .bool _, .bool => true
  | .float _, .float => true
  | .str _, .str => true
  | _, _ => false

/-- Python's `float(v)` as applied in `merge_parameters` (only ever reached
when `type(v) is int`). -/
def pyFloatOfInt : PyVal → PyVal
  | .int n => .float (n : ℚ)
  | v => v

/-- Python's `v == "s"` for a dictionary value: string equality when the
value is a string, `False` otherwise. -/
def pvEqStr (v : PyVal) (s : String) : Bool :=
  match v with
  | .str t => t == s
  | _ => false

/-- Python's `v == True` / `v == False` for a dictionary value. -/
def pvEqBool (v : PyVal) (b : Bool) : Bool :=
  match v with
  | .bool c => c == b
  | _ => false

/-- The string payload of a value; the modelled code only applies this where
`merge_parameters` has already enforced that the value is a string. -/
def pvStr : PyVal → String
  | .str s => s
  | _ => ""

/-- Python's `s.lower()` for the ASCII strings the configuration uses
(written over the character list so that it evaluates by reduction). -/
def pyLowerStr (s : String) : String := ⟨s.data.map Char.toLower⟩

/-- Python's `v.lower()` as used on `params["multithread_mode"]`; on a
non-string Python would raise AttributeError, which `merge_parameters`'s
type check makes unreachable. -/
def pyLowerVal : PyVal → PyVal
  | .str s => .str (pyLowerStr s)
  | v => v

/-! ## Python dictionaries as association lists -/

/-- Dictionary lookup, `d[k]` / `k in d`. -/
def lookupPV : List (String × PyVal) → String → Option PyVal
  | [], _ => none
  | p :: ps, k => if p.1 == k then some p.2 else lookupPV ps k

/-- Dictionary update `d[k] = v`: replaces the value of an existing key in
place (insertion order preserved), appends a fresh key at the end. -/
def updatePV : List (String × PyVal) → String → PyVal → List (String × PyVal)
  | [], k, v => [(k, v)]
  | p :: ps, k, v => if p.1 == k then (k, v) :: ps else p :: updatePV ps k v

/-- Lookup in the type dictionary built by `make_type_dict`. -/
def lookupTD : List (String × PyType) → String → Option PyType
  | [], _ => none
  | p :: ps, k => if p.1 == k then some p.2 else lookupTD ps k

/-- `params[k]` with the modelled code's guarantee that the key is present
(the merged dictionary always carries every key of the default one). -/
def getPV (d : List (String × PyVal)) (k : String) : PyVal :=
  (lookupPV d k).getD (.str "")

/-! ## Errors raised by the modelled code -/

inductive PyError where
  /-- `ImportError` from Start.py line 98: mpi4py missing in mpi mode. -/
  | importErr
  /-- `AttributeError` from calling `.GetBonds()` on the `None` that
  `Chem.MolFromSmiles(smiles, sanitize=False)` returns for an unparsable
  SMILES string (Start.py line 216). -/
  | attributeErr
  /-- `Exception("There is a corrupted container")`, Start.py line 173. -/
  | corruptedContainer
  /-- `KeyError` for an unrecognized parameter, Start.py line 313. -/
  | keyErr (k : String)
  /-- `TypeError` for a parameter of the wrong type, Start.py line 329. -/
  | typeErr (k : String)
  /-- `Exception` from `make_type_dict`, Start.py line 363. -/
  | parametersErr
  /-- `NotImplementedError("Missing parameter.")`, Start.py line 391. -/
  | missingParameter
  /-- `Exception` for pdb output without an output folder, line 414. -/
  | pdbNeedsFolder
  /-- `Exception` for separate output files without a folder, line 420. -/
  | sepNeedsFolder
  /-- `Exception` for no output destination at all, line 431. -/
  | missingOutput
  /-- `Exception("container.orig_smi_canonical: ...")` raised by
  `parallel_add_H` when the canonical SMILES is not a string. -/
  | notAString
deriving DecidableEq, Inhabited

/-! ## set_parameters / merge_parameters / finalize_params (Start.py) -/

/-- The default parameter dictionary of `set_parameters` (Start.py
lines 233-259), in source order. -/
def default_params : List (String × PyVal) := [
  ("source", .str ""),
  ("output_folder", .str ""),
  ("output_file", .str ""),
  ("separate_output_files", .bool false),
  ("output_pdb", .bool false),
  ("num_processors", .int (-1)),
  ("start_time", .int 0),
  ("end_time", .int 0),
  ("run_time", .int 0),
  ("min_ph", .float (32/5)),
  ("max_ph", .float (42/5)),
  ("ph_std_dev", .float 1),
  ("thoroughness", .int 3),
  ("max_variants_per_compound", .int 5),
  ("second_embed", .bool false),
  ("2d_output_only", .bool false),
  ("skip_optimize_geometry", .bool false),
  ("skip_alternate_ring_conformations", .bool false),
  ("skip_adding_hydrogen", .bool false),
  ("skip_making_tautomers", .bool false),
  ("skip_ennumerate_chiral_mol", .bool false),
  ("skip_ennumerate_double_bonds", .bool false),
  ("multithread_mode", .str "multithreading"),
  ("cache_prerun", .bool false),
  ("test", .bool false)]

/-- One key's entry of `make_type_dict`'s inner loop (Start.py lines
348-354): the last element of `allowed_types = [int, float, bool, str]`
that the value is an instance of, or `none` when it is an instance of no
allowed type. -/
def make_type_entry (v : PyVal) : Option PyType :=
  [PyType.int, PyType.float, PyType.bool, PyType.str].foldl
    (fun acc t => if isinstance v t then some t else acc) none

/-- `make_type_dict` (Start.py lines 334-365): the same keys, but the
values replaced by their allowed type; raises when a value has no allowed
type. -/
def make_type_dict : List (String × PyVal) → Except PyError (List (String × PyType))
  | [] => .ok []
  | p :: ps =>
    match make_type_entry p.2 with
    | none => .error .parametersErr
    | some t =>
      match make_type_dict ps with
      | .error e => .error e
      | .ok td => .ok ((p.1, t) :: td)

/-- One iteration of `merge_parameters`'s loop body (Start.py lines
305-332) for the user entry `kv`: unknown key raises KeyError; a value
failing `isinstance` against the default's type raises TypeError unless it
is an int supplied where a float is expected, which is widened. -/
def merge_step (td : List (String × PyType)) (d : List (String × PyVal))
    (kv : String × PyVal) : Except PyError (List (String × PyVal)) :=
  match lookupPV d kv.1 with
  | none => .error (.keyErr kv.1)
  | some _ =>
    match lookupTD td kv.1 with
    | none => .error (.keyErr kv.1)
    | some t =>
      if isinstance kv.2 t then .ok (updatePV d kv.1 kv.2)
      else if pytype kv.2 == PyType.int && t == PyType.float then
        .ok (updatePV d kv.1 (pyFloatOfInt kv.2))
      else .error (.typeErr kv.1)

/-- The `for param in params` loop of `merge_parameters`. -/
def merge_loop (td : List (String × PyType)) :
    List (String × PyVal) → List (String × PyVal) →
    Except PyError (List (String × PyVal))
  | [], d => .ok d
  | kv :: rest, d =>
    match merge_step td d kv with
    | .error e => .error e
    | .ok d2 => merge_loop td rest d2

/-- `merge_parameters` (Start.py lines 290-332): moves the user-specified
values into the default dictionary, raising on unrecognized keys and type
mismatches (with the int-to-float widening). -/
def merge_parameters (default params : List (String × PyVal)) :
    Except PyError (List (String × PyVal)) :=
  match make_type_dict default with
  | .error e => .error e
  | .ok td => merge_loop td params default

/-- Python's `os.path.basename`, as used by `finalize_params`: the part of
the path after the last separator. -/
def pyBasename (s : String) : String :=
  ⟨(s.data.reverse.takeWhile (fun c => c ≠ '/')).reverse⟩

/-- Python's `s.strip(chars)`, as used by `finalize_params`: removes from
both ends every character that occurs in `chars`. -/
def pyStripChars (s chars : String) : String :=
  ⟨((s.data.dropWhile (fun c => chars.data.contains c)).reverse.dropWhile
      (fun c => chars.data.contains c)).reverse⟩

/-- `finalize_params` (Start.py lines 367-438).  The call to
`os.path.abspath` is omitted (it only rewrites the source path through the
file system); everything else — the missing-source error, the derivation of
a default output folder from the source path via
`source.strip(os.path.basename(source))`, the output-destination errors,
the defaulting of `output_file`, and the lowercasing of
`multithread_mode` — is translated directly. -/
def finalize_params (params : List (String × PyVal)) :
    Except PyError (List (String × PyVal)) :=
  if pvEqStr (getPV params "source") "" then .error .missingParameter
  else
    let source := pvStr (getPV params "source")
    let source_dir := pyStripChars source (pyBasename source)
    let params :=
      if pvEqStr (getPV params "output_folder") ""
          && !(pvEqStr (getPV params "source") "") then
        updatePV params "output_folder" (.str (source_dir ++ "output" ++ "/"))
      else params
    if pvEqBool (getPV params "output_pdb") true
        && pvEqStr (getPV params "output_folder") "" then .error .pdbNeedsFolder
    else if pvEqBool (getPV params "separate_output_files") true
        && pvEqStr (getPV params "output_folder") "" then .error .sepNeedsFolder
    else
      let params :=
        if pvEqStr (getPV params "output_file") ""
            && !(pvEqStr (getPV params "output_folder") "") then
          updatePV params "output_file"
            (.str (pvStr (getPV params "output_folder") ++ "output.sdf"))
        else params
      if pvEqStr (getPV params "output_file") ""
          && pvEqStr (getPV params "output_folder") "" then .error .missingOutput
      else
        .ok (updatePV params "multithread_mode"
          (pyLowerVal (getPV params "multithread_mode")))

/-- `set_parameters` (Start.py lines 221-288): keys lowercased (the Python 3
branch of the version split), user values merged over the defaults, and the
result finalized. -/
def set_parameters (args : List (String × PyVal)) :
    Except PyError (List (String × PyVal)) :=
  let params := args.map (fun kv => (pyLowerStr kv.1, kv.2))
  match merge_parameters default_params params with
  | .error e => .error e
  | .ok merged => finalize_params merged

/-! ## The molecule data model

`MyMol` and `MolContainer` are classes of the repository that are not among
its source files (gypsum/MyMol.py and gypsum/MolContainer.py); the fields
below are the ones the three source files under src/ read and write, and
the constructor behavior is modelled from the specification's data model
(spec sections 3 and 4.3). -/

/-- Modelled from the spec: one candidate molecule ("Variant", gypsum's
MyMol.MyMol).  `smiles_noarg` stands for the Python call `mol.smiles()`
and `smiles_canon` for `mol.smiles(True)`; `bizarre` is the cached result
of `mol.remove_bizarre_substruc()`; `rdkit_props` is the underlying RDKit
molecule's property table written by `set_rdkit_mol_prop`. -/
structure MyMol where
  smiles_noarg : String
  smiles_canon : String
  genealogy : List String
  name : String
  contnr_idx : Nat
  orig_smi : String
  orig_smi_deslt : String
  contnr_props : List (String × PyVal)
  rdkit_props : List (String × String)
  bizarre : Bool
deriving DecidableEq, Inhabited

/-- Modelled from the spec: one record per input molecule ("Container",
gypsum's MolContainer.MolContainer).  `orig_smi_canonical` is `none` when
the external engine could not convert the input structure (Python `None`),
otherwise the canonical SMILES string. -/
structure MolContainer where
  orig_smi : String
  name : String
  contnr_idx : Nat
  properties : List (String × PyVal)
  orig_smi_canonical : Option String
  mol_orig_frm_inp_smi : MyMol
  mols : List MyMol
deriving DecidableEq, Inhabited

/-- One input record, the `(smiles, name, properties)` triple produced by
the loaders. -/
structure InputRecord where
  smi : String
  name : String
  props : List (String × PyVal)
deriving DecidableEq, Inhabited

/-- The events of a pipeline run that the claims observe, in the order the
run emits them. -/
inductive Event where
  /-- The `Parallelizer(...)` construction, Start.py lines 108-115. -/
  | parallelizerInit (mode : String)
  /-- `MolContainer(smiles, name, idx_counter, props)` accepted into
  `contnrs` with identity `idx`, Start.py lines 162-168. -/
  | containerCreated (idx : Nat)
  /-- A stage's dispatch call (`prepare_smiles`, `prepare_3d`). -/
  | stageDispatch (stage : String)
  /-- The `add_mol_id_props` pass, Start.py line 185. -/
  | assignIds
  /-- The `deal_with_failed_molecules` pass, Start.py line 191. -/
  | collectFailures
deriving DecidableEq, Inhabited

/-- The run's environment: every external capability the modelled code
consults.  `parse_nosanitize` stands for
`Chem.MolFromSmiles(smiles, sanitize=False)` followed by reading every
bond's `GetBondTypeAsDouble()` (`none` = the parse returned Python `None`);
`canonicalize` stands for the canonical-SMILES conversion MolContainer
performs on construction; `mk_orig_mol` builds the container's
`mol_orig_frm_inp_smi` molecule from the input SMILES and name. -/
structure Env where
  mpi4py_available : Bool
  is_win32 : Bool
  parse_nosanitize : String → Option (List ℚ)
  canonicalize : String → Option String
  mk_orig_mol : String → String → MyMol

/-- `detect_unassigned_bonds` (Start.py lines 206-219).  When the
unsanitized parse yields Python `None`, the subsequent `mol.GetBonds()`
call raises AttributeError; otherwise the function returns `None` exactly
when some bond's order is 0.0 (unassigned), and the input string itself
otherwise. -/
def detect_unassigned_bonds (parse : String → Option (List ℚ))
    (smiles : String) : Except PyError (Option String) :=
  match parse smiles with
  | none => .error .attributeErr
  | some bonds =>
    if bonds.any (fun b => b == 0) then .ok none else .ok (some smiles)

/-- Modelled from the spec: `MolContainer(smiles, name, idx, props)`
construction (the class is not under src/).  Per the spec's Container data
model it records the as-given structure, the display name, the
once-assigned integer identity, the property bag, the canonical form (or
`none` on conversion failure) and the original-input molecule; the live
variant list starts empty and is only ever written by stage commits, which
replace it wholesale before anything reads it. -/
def mkMolContainer (env : Env) (smiles name : String) (idx : Nat)
    (props : List (String × PyVal)) : MolContainer :=
  { orig_smi := smiles
    name := name
    contnr_idx := idx
    properties := props
    orig_smi_canonical := env.canonicalize smiles
    mol_orig_frm_inp_smi := env.mk_orig_mol smiles name
    mols := [] }

/-- The container-construction loop of `prepare_molecules` (Start.py lines
153-168): records with unassigned bonds or a failed canonical conversion
are skipped (the identity counter does not advance for them); the Python
test `new_contnr.orig_smi_canonical == None or
type(new_contnr.orig_smi_canonical) != str` collapses to `isNone` in the
model, where the canonical field is `Option String`. -/
def build_loop (env : Env) :
    List InputRecord → List MolContainer → Nat → List Event →
    List Event × Except PyError (List MolContainer × Nat)
  | [], acc, idx, evs => (evs, .ok (acc, idx))
  | r :: rest, acc, idx, evs =>
    match detect_unassigned_bonds env.parse_nosanitize r.smi with
    | .error e => (evs, .error e)
    | .ok none => build_loop env rest acc idx evs
    | .ok (some _) =>
      let c := mkMolContainer env r.smi r.name idx r.props
      if c.orig_smi_canonical.isNone then build_loop env rest acc idx evs
      else build_loop env rest (acc ++ [c]) (idx + 1)
        (evs ++ [Event.containerCreated idx])

/-- Container construction including the post-loop guard (Start.py lines
153-173): the accepted containers are re-filtered by a non-`None` canonical
SMILES and the result's length compared with the identity counter; a
mismatch raises `Exception("There is a corrupted container")`. -/
def build_containers (env : Env) (smiles_data : List InputRecord) :
    List Event × Except PyError (List MolContainer) :=
  match build_loop env smiles_data [] 0 [] with
  | (evs, .error e) => (evs, .error e)
  | (evs, .ok (contnrs, idx)) =>
    let contnrs := contnrs.filter (fun c => c.orig_smi_canonical.isSome)
    if contnrs.length ≠ idx then (evs, .error .corruptedContainer)
    else (evs, .ok contnrs)

/-- Whether a run result is the corrupted-container exception. -/
def isCorrupted {α : Type} : Except PyError α → Bool
  | .error .corruptedContainer => true
  | _ => false

/-- The record-level acceptance test the container-construction loop
implements, read off the same environment: the unsanitized parse succeeds,
no bond order is 0.0, and the canonical conversion succeeds. -/
def record_accepted (env : Env) (r : InputRecord) : Bool :=
  match env.parse_nosanitize r.smi with
  | none => false
  | some bonds =>
    !(bonds.any (fun b => b == 0)) && (env.canonicalize r.smi).isSome

/-- Modelled from the spec: a stage commit (`prepare_smiles` /
`prepare_3d` are not under src/).  Per spec section 4.3,
`commitStageResult(containerID, survivingVariants)` replaces the
container's live variant set and touches nothing else; the stage's
chemistry is the oracle `sf`. -/
def commit_stage (sf : MolContainer → List MyMol)
    (contnrs : List MolContainer) : List MolContainer :=
  contnrs.map (fun c => { c with mols := sf c })

/-- RDKit's `mol.SetProp(k, v)` on the modelled property table: overwrite
the existing entry or append a new one. -/
def setProp : List (String × String) → String → String → List (String × String)
  | [], k, v => [(k, v)]
  | p :: ps, k, v => if p.1 == k then (k, v) :: ps else p :: setProp ps k v

/-- RDKit's `mol.GetProp`-style lookup on the modelled property table. -/
def getProp : List (String × String) → String → Option String
  | [], _ => none
  | p :: ps, k => if p.1 == k then some p.2 else getProp ps k

/-- The inner loop of `add_mol_id_props` over one container's molecules:
increment the shared counter, then stamp `UniqueID` with its decimal
rendering (`str(cont_id)`).  The external `set_all_rdkit_mol_props` call,
which only syncs the wrapper's name and genealogy into the same property
table, is not modelled. -/
def add_id_to_mols : List MyMol → Nat → List MyMol × Nat
  | [], n => ([], n)
  | m :: rest, n =>
    let r := add_id_to_mols rest (n + 1)
    ({ m with rdkit_props := setProp m.rdkit_props "UniqueID" (toString (n + 1)) }
        :: r.1,
      r.2)

/-- The outer loop of `add_mol_id_props` over the containers, threading the
single shared counter `cont_id`. -/
def add_mol_id_props_loop : List MolContainer → Nat → List MolContainer × Nat
  | [], n => ([], n)
  | c :: cs, n =>
    let r1 := add_id_to_mols c.mols n
    let r2 := add_mol_id_props_loop cs r1.2
    ({ c with mols := r1.1 } :: r2.1, r2.2)

/-- `add_mol_id_props` (Start.py lines 440-453): one post-stage pass over
every molecule of every container, assigning `UniqueID` 1, 2, 3, ... from
a counter starting at 0. -/
def add_mol_id_props (contnrs : List MolContainer) : List MolContainer :=
  (add_mol_id_props_loop contnrs 0).1

/-- The accumulation loop of `deal_with_failed_molecules` (Start.py lines
465-469): one `orig_smi<TAB>name` record per container whose molecule list
is empty. -/
def deal_with_failed_molecules (contnrs : List MolContainer) : List String :=
  contnrs.foldl
    (fun acc c =>
      if c.mols.length == 0 then acc ++ [c.orig_smi ++ "\t" ++ c.name] else acc)
    []

/-- Python's `sep.join(l)`. -/
def joinWith (sep : String) : List String → String
  | [] => ""
  | [x] => x
  | x :: y :: xs => x ++ sep ++ joinWith sep (y :: xs)

/-- The failure side-channel file's content (Start.py lines 472-482): the
`"\n".join(failed_ones)` text, written only when at least one container
failed. -/
def failure_file_content (contnrs : List MolContainer) : Option String :=
  let failed_ones := deal_with_failed_molecules contnrs
  if 0 < failed_ones.length then some (joinWith "\n" failed_ones) else none

/-- The tail of `prepare_molecules` from the `Parallelizer` construction on
(Start.py lines 108-191): construct the parallelizer for the resolved
`mode`, build the containers, run the two stage phases (lines 179 and 182;
`prepare_smiles` / `prepare_3d` are not under src/ — their commits are the
oracles `sf1`, `sf2`, see `commit_stage`), assign the unique ids, and
collect the failure records. -/
def prepare_molecules_core (env : Env) (sf1 sf2 : MolContainer → List MyMol)
    (mode : String) (smiles_data : List InputRecord) :
    List Event × Except PyError (List MolContainer × List String) :=
  let ev0 := [Event.parallelizerInit mode]
  match build_containers env smiles_data with
  | (ev1, .error e) => (ev0 ++ ev1, .error e)
  | (ev1, .ok contnrs0) =>
    let contnrs1 := commit_stage sf1 contnrs0
    let contnrs2 := commit_stage sf2 contnrs1
    let contnrs3 := add_mol_id_props contnrs2
    let failed := deal_with_failed_molecules contnrs3
    (ev0 ++ ev1 ++ [Event.stageDispatch "prepare_smiles",
        Event.stageDispatch "prepare_3d", Event.assignIds,
        Event.collectFailures],
      .ok (contnrs3, failed))

/-- `prepare_molecules` (Start.py lines 44-204), the non-json command-line
path.  In place of the file-reading branch (lines 122-135) the already
loaded records `smiles_data` are a parameter — `load_smiles_file` and
`load_sdf_file` are modelled separately below — and the output-directory
creation, logging, timing bookkeeping, `proccess_output` and the final
`Parallelizer.end` teardown are side effects outside the model.  Everything
the claims observe is returned: the ordered event trace, and on success the
final containers together with the failure records. -/
def prepare_molecules (env : Env) (sf1 sf2 : MolContainer → List MyMol)
    (args : List (String × PyVal)) (smiles_data : List InputRecord) :
    List Event × Except PyError (List MolContainer × List String) :=
  match set_parameters args with
  | .error e => ([], .error e)
  | .ok params0 =>
    let params1 :=
      if pvEqStr (getPV params0 "multithread_mode") "serial" then
        updatePV params0 "num_processors" (.int 1)
      else params0
    if pvEqStr (getPV params1 "multithread_mode") "mpi"
        && !env.mpi4py_available then
      ([], .error .importErr)
    else
      let params2 :=
        if env.is_win32 then
          updatePV (updatePV params1 "num_processors" (.int 1))
            "multithread_mode" (.str "serial")
        else params1
      prepare_molecules_core env sf1 sf2
        (pvStr (getPV params2 "multithread_mode")) smiles_data

/-! ## The file loaders (gypsum/Steps/IO/LoadFiles.py) -/

/-- Python's `s.strip()` with no argument: whitespace removed from both
ends. -/
def pyStrip (s : String) : String :=
  ⟨((s.data.dropWhile Char.isWhitespace).reverse.dropWhile
      Char.isWhitespace).reverse⟩

/-- The worker behind Python's no-argument `s.split()`: split on runs of
whitespace, dropping empty chunks. -/
def pySplitAux : List Char → List Char → List String
  | [], acc => if acc.isEmpty then [] else [⟨acc.reverse⟩]
  | c :: rest, acc =>
    if c.isWhitespace then
      if acc.isEmpty then pySplitAux rest []
      else ⟨acc.reverse⟩ :: pySplitAux rest []
    else pySplitAux rest (c :: acc)

/-- Python's no-argument `s.split()`. -/
def pySplit (s : String) : List String := pySplitAux s.data []

/-- Lookup in the `duplicate_names` count dictionary. -/
def lookupCount : List (String × Nat) → String → Option Nat
  | [], _ => none
  | p :: ps, k => if p.1 == k then some p.2 else lookupCount ps k

/-- Update of the `duplicate_names` count dictionary. -/
def updateCount : List (String × Nat) → String → Nat → List (String × Nat)
  | [], k, v => [(k, v)]
  | p :: ps, k, v => if p.1 == k then (k, v) :: ps else p :: updateCount ps k v

/-- The loaders' mutable state: the records accumulated so far and the
bookkeeping counters (`duplicate_names`, `missing_name_counter`, the
per-loader position counter, `name_list`). -/
structure LoadState where
  data : List InputRecord
  duplicate_names : List (String × Nat)
  missing_name_counter : Nat
  pos_counter : Nat
  name_list : List String
deriving DecidableEq, Inhabited

def initLoadState : LoadState :=
  { data := [], duplicate_names := [], missing_name_counter := 0,
    pos_counter := 0, name_list := [] }

/-- The duplicate-name renaming shared by both loaders (LoadFiles.py lines
45-61 and 107-123): when the candidate name was already used, append
`_copy_k` with `k` read from (and written back to) `duplicate_names`,
starting at 2. -/
def rename_duplicate (st : LoadState) (name : String) :
    String × List (String × Nat) :=
  if st.name_list.contains name then
    match lookupCount st.duplicate_names name with
    | some c =>
      (name ++ "_copy_" ++ toString (c + 1),
        updateCount st.duplicate_names name (c + 1))
    | none =>
      (name ++ "_copy_" ++ toString 2, updateCount st.duplicate_names name 2)
  else (name, st.duplicate_names)

/-- One line of `load_smiles_file`'s loop (LoadFiles.py lines 27-66): strip
the line; skip it when empty; split it into the SMILES chunk and the
space-joined name; name untitled ligands `untitled_lig_M_line_L`; apply
the duplicate renaming; record the final name and advance `line_counter`. -/
def smiles_line_step (st : LoadState) (rawline : String) : LoadState :=
  let line := pyStrip rawline
  if line == "" then st
  else
    let chunks := pySplit line
    let smiles := chunks.headD ""
    let name0 := joinWith " " chunks.tail
    let (name1, missing1) :=
      if name0 == "" then
        ("untitled_lig_" ++ toString st.missing_name_counter
            ++ "_line_" ++ toString st.pos_counter,
          st.missing_name_counter + 1)
      else (name0, st.missing_name_counter)
    let (name2, dups2) := rename_duplicate st name1
    { data := st.data ++ [{ smi := smiles, name := name2, props := [] }],
      duplicate_names := dups2,
      missing_name_counter := missing1,
      pos_counter := st.pos_counter + 1,
      name_list := st.name_list ++ [name2] }

/-- `load_smiles_file` (LoadFiles.py lines 11-69), over the file's lines. -/
def load_smiles_file (lines : List String) : List InputRecord :=
  (lines.foldl smiles_line_step initLoadState).data

/-- One record of an SDF file after the external conversions: the
`Chem.MolToSmiles` output, the `_Name` property (already replaced by `""`
when absent, per the try/except), and the `GetPropsAsDict` property bag
(already `[]` when that call raised). -/
structure SdfMolRec where
  smiles : String
  name : String
  props : List (String × PyVal)
deriving DecidableEq, Inhabited

/-- One molecule of `load_sdf_file`'s loop (LoadFiles.py lines 86-135).
Faithful to the source's indentation: the duplicate-name handling, the
`mol_obj_counter` increment and the `name_list` append are all nested
inside the `if name == ""` branch, so they run only for ligands that
arrived unnamed; a named molecule is appended with its name unchanged and
unrecorded.  A record whose converted SMILES is empty is not appended. -/
def sdf_mol_step (st : LoadState) (rec : SdfMolRec) : LoadState :=
  let name0 := rec.name
  let (name3, dups3, missing3, pos3, names3) :=
    if name0 == "" then
      let name1 := "untitled_lig_" ++ toString st.missing_name_counter
          ++ "_molnum_" ++ toString st.pos_counter
      let missing1 := st.missing_name_counter + 1
      let (name2, dups2) := rename_duplicate st name1
      (name2, dups2, missing1, st.pos_counter + 1, st.name_list ++ [name2])
    else
      (name0, st.duplicate_names, st.missing_name_counter, st.pos_counter,
        st.name_list)
  { data :=
      if rec.smiles ≠ "" then
        st.data ++ [{ smi := rec.smiles, name := name3, props := rec.props }]
      else st.data,
    duplicate_names := dups3,
    missing_name_counter := missing3,
    pos_counter := pos3,
    name_list := names3 }

/-- `load_sdf_file` (LoadFiles.py lines 71-137), over the supplier's
already-converted records. -/
def load_sdf_file (mols : List SdfMolRec) : List InputRecord :=
  (mols.foldl sdf_mol_step initLoadState).data

/-! ## The protonation stage (gypsum/Steps/SMILES/AddHydrogens.py) -/

/-- The `protonation_settings` dictionary built by `add_hydrogens`
(AddHydrogens.py lines 55-57), before `parallel_add_H` adds the SMILES. -/
structure ProtSettings where
  min_ph : ℚ
  max_ph : ℚ
  st_dev : ℚ
deriving DecidableEq, Inhabited

/-- Modelled from the spec: `MyMol.inherit_contnr_props` (MyMol.py is not
under src/).  Per the spec's Variant data model, a variant carries its
owning container's identity as a back-reference and inherits the
container's property bag. -/
def inherit_contnr_props (m : MyMol) (c : MolContainer) : MyMol :=
  { m with contnr_props := c.properties, contnr_idx := c.contnr_idx }

/-- The body of `parallel_add_H`'s final loop (AddHydrogens.py lines
143-151), applied to one surviving molecule `Hm`: inherit the container's
properties, take a copy of the original molecule's genealogy and name, and
append one `(protonated)` entry exactly when `Hm.smiles()` differs from
the original's. -/
def addH_finalize (contnr : MolContainer) (orig_mol Hm : MyMol) : MyMol :=
  let Hm2 := inherit_contnr_props Hm contnr
  let Hm3 := { Hm2 with genealogy := orig_mol.genealogy,
                        name := orig_mol.name }
  if Hm3.smiles_noarg ≠ orig_mol.smiles_noarg then
    { Hm3 with genealogy :=
        Hm3.genealogy ++ [Hm3.smiles_canon ++ " (protonated)"] }
  else Hm3

/-- `parallel_add_H` (AddHydrogens.py lines 100-153).  The oracle
`protonate` stands for Dimorphite-DL on the settings-plus-SMILES
dictionary; `mkAddH` stands for
`MyMol.MyMol(Chem.AddHs(Chem.MolFromSmiles(smi.strip())))`, returning
`none` for a SMILES RDKit cannot parse (a `none` is removed by the
`is not None` filter; that the intermediate `AddHs` call would itself
raise on Python `None` is not observable by the claims below, which
condition on a returned result).  Each surviving molecule then goes
through `addH_finalize`. -/
def parallel_add_H (protonate : ProtSettings → String → List String)
    (mkAddH : String → Option MyMol) (contnr : MolContainer)
    (protonation_settings : ProtSettings) : Except PyError (List MyMol) :=
  match contnr.orig_smi_canonical with
  | none => .error .notAString
  | some smi =>
    let smis := protonate protonation_settings smi
    let addH_mols := smis.filterMap mkAddH
    let addH_mols := addH_mols.filter (fun m => m.bizarre == false)
    .ok (addH_mols.map (addH_finalize contnr contnr.mol_orig_frm_inp_smi))

/-- Modelled from the spec: `Utils.fnd_contnrs_not_represntd` (Utils.py is
not under src/).  Per the spec, the dispatcher reports "which inputs
produced nothing": the positions of the containers no result molecule
points back to. -/
def fnd_contnrs_not_represntd (contnrs : List MolContainer)
    (results : List MyMol) : List Nat :=
  (List.range contnrs.length).filter
    (fun i => !(results.any (fun m => m.contnr_idx == i)))

/-- The dispatch phase of `add_hydrogens` (AddHydrogens.py lines 59-64):
only containers whose canonical SMILES is a string are dispatched, each
through one `parallel_add_H` call, and the per-container result lists are
flattened.  The error branch of `parallel_add_H` is unreachable for the
filtered inputs; per the spec's dispatcher error policy a failing item
contributes no results rather than aborting the batch. -/
def dispatch_add_H (protonate : ProtSettings → String → List String)
    (mkAddH : String → Option MyMol) (ps : ProtSettings)
    (contnrs : List MolContainer) : List MyMol :=
  ((contnrs.filter (fun c => c.orig_smi_canonical.isSome)).map
      (fun c =>
        match parallel_add_H protonate mkAddH c ps with
        | .ok l => l
        | .error _ => [])).flatten

/-- The warning genealogy written by `add_hydrogens`'s fallback
(AddHydrogens.py lines 84-88). -/
def fallback_genealogy (amol : MyMol) : List String :=
  [amol.orig_smi ++ " (source)",
    amol.orig_smi_deslt ++ " (desalted)",
    "(WARNING: Gypsum could not assign protonation states)"]

/-- The fallback molecule `add_hydrogens` appends for the container at
position `i` (AddHydrogens.py lines 72-92): the container's unmodified
original molecule, with its container index set to `i` and the warning
genealogy. -/
def fallback_mol (contnrs : List MolContainer) (i : Nat) : MyMol :=
  let amol := (contnrs.getD i default).mol_orig_frm_inp_smi
  { amol with contnr_idx := i, genealogy := fallback_genealogy amol }

/-- The result list `add_hydrogens` hands to diversity selection
(AddHydrogens.py lines 59-92): the flattened dispatch results, followed by
one fallback molecule per unrepresented container. -/
def add_hydrogens_results (protonate : ProtSettings → String → List String)
    (mkAddH : String → Option MyMol) (ps : ProtSettings)
    (contnrs : List MolContainer) : List MyMol :=
  let results := dispatch_add_H protonate mkAddH ps contnrs
  results ++ (fnd_contnrs_not_represntd contnrs results).map
    (fallback_mol contnrs)

/-- `add_hydrogens` (AddHydrogens.py lines 16-98): build the protonation
settings, dispatch, patch in the fallbacks, then hand the whole list to
`ChemUtils.bst_for_each_contnr_no_opt` (ChemUtils.py is not under src/;
the diversity selector is the oracle `bst_for_each_contnr_no_opt`). -/
def add_hydrogens
    (bst_for_each_contnr_no_opt :
      List MolContainer → List MyMol → Nat → Nat → List MolContainer)
    (protonate : ProtSettings → String → List String)
    (mkAddH : String → Option MyMol)
    (min_pH max_pH st_dev : ℚ) (max_variants_per_compound thoroughness : Nat)
    (contnrs : List MolContainer) : List MolContainer :=
  let protonation_settings : ProtSettings :=
    { min_ph := min_pH, max_ph := max_pH, st_dev := st_dev }
  bst_for_each_contnr_no_opt contnrs
    (add_hydrogens_results protonate mkAddH protonation_settings contnrs)
    max_variants_per_compound thoroughness

/-! ## Derived predicates and concrete instances used by the theorems -/

/-- Whether one user-supplied entry passes `merge_parameters`'s checks
against the default dictionary: the key is recognized, and the value either
satisfies `isinstance` against the default's type or is an int supplied
where a float is expected. -/
def merge_entry_ok (k : String) (v : PyVal) : Bool :=
  match lookupPV default_params k with
  | none => false
  | some d =>
    match make_type_entry d with
    | none => false
    | some t => isinstance v t || (pytype v == PyType.int && t == PyType.float)

/-- Whether `set_parameters` succeeds on `args` and resolves
`multithread_mode` to `mode`. -/
def resolved_mode_is (args : List (String × PyVal)) (mode : String) : Bool :=
  match set_parameters args with
  | .ok p => pvEqStr (getPV p "multithread_mode") mode
  | .error _ => false

/-- A concrete original-input molecule for the evaluation environments. -/
def mol_of (smi nm : String) : MyMol :=
  { smiles_noarg := smi, smiles_canon := smi,
    genealogy := [smi ++ " (source)"], name := nm, contnr_idx := 0,
    orig_smi := smi, orig_smi_deslt := smi, contnr_props := [],
    rdkit_props := [], bizarre := false }

/-- A concrete well-behaved environment: every SMILES parses with one
single bond, canonicalization is the identity. -/
def env0 : Env :=
  { mpi4py_available := true, is_win32 := false,
    parse_nosanitize := fun _ => some [1],
    canonicalize := fun s => some s,
    mk_orig_mol := mol_of }

/-- `env0` with the mpi4py runtime absent. -/
def env_mpi_missing : Env := { env0 with mpi4py_available := false }

/-- `env0` except that the SMILES string `"C("` is syntactically
unparsable: `Chem.MolFromSmiles("C(", sanitize=False)` returns `None`. -/
def env_badparse : Env :=
  { env0 with parse_nosanitize := fun s => if s == "C(" then none else some [1] }

/-- A stage oracle that discards every variant of every container. -/
def sf_none : MolContainer → List MyMol := fun _ => []

def args_src : List (String × PyVal) := [("source", .str "input.smi")]

def args_mpi : List (String × PyVal) :=
  [("source", .str "input.smi"), ("multithread_mode", .str "mpi")]

def data0 : List InputRecord :=
  [{ smi := "CCO", name := "ethanol", props := [] },
    { smi := "CCC", name := "propane", props := [] }]

/-- The concrete run used by the witnesses: both stages discard all
variants, so every container ends the run failed. -/
def run0 : List Event × Except PyError (List MolContainer × List String) :=
  prepare_molecules env0 sf_none sf_none args_src data0

def run0_contnrs : List MolContainer :=
  match run0.2 with
  | .ok p => p.1
  | .error _ => []

def run0_failed : List String :=
  match run0.2 with
  | .ok p => p.2
  | .error _ => []

def buildw : List Event × Except PyError (List MolContainer) :=
  build_containers env0 data0

def buildw_contnrs : List MolContainer :=
  match buildw.2 with
  | .ok l => l
  | .error _ => []

/-- A concrete Dimorphite-DL oracle producing one protonated SMILES. -/
def protonate_w : ProtSettings → String → List String := fun _ _ => ["OCC"]

/-- A concrete parse-and-add-hydrogens oracle. -/
def addH_w : String → Option MyMol := fun s => some (mol_of s s)

def contnr_w : MolContainer := mkMolContainer env0 "CCO" "ethanol" 0 []

def ps_w : ProtSettings := { min_ph := 32/5, max_ph := 42/5, st_dev := 1 }

def addH_mols_w : List MyMol :=
  match parallel_add_H protonate_w addH_w contnr_w ps_w with
  | .ok l => l
  | .error _ => []

def m_w : MyMol := addH_mols_w.headD default

/-! ## Helper lemmas -/

theorem range1_append : ∀ (m a n : Nat),
    List.range' a m ++ List.range' (a + m) n = List.range' a (m + n)
  | 0, a, n => by simp
  | m + 1, a, n => by
    have h1 : a + (m + 1) = (a + 1) + m := by omega
    have h2 : m + 1 + n = (m + n) + 1 := by omega
    rw [h1, h2]
    simp only [List.range'_succ, List.cons_append]
    rw [range1_append m (a + 1) n]

theorem getProp_setProp (ps : List (String × String)) (k v : String) :
    getProp (setProp ps k v) k = some v := by
  induction ps with
  | nil => simp [setProp, getProp]
  | cons p ps ih =>
    cases hb : p.1 == k with
    | true => simp [setProp, hb, getProp]
    | false => simp [setProp, hb, getProp, ih]

theorem deal_with_failed_foldl (contnrs : List MolContainer) : ∀ acc : List String,
    contnrs.foldl (fun acc c =>
        if c.mols.length == 0 then acc ++ [c.orig_smi ++ "\t" ++ c.name] else acc)
        acc
      = acc ++ (contnrs.filter (fun c => c.mols.length == 0)).map
          (fun c => c.orig_smi ++ "\t" ++ c.name) := by
  induction contnrs with
  | nil => intro acc; simp
  | cons c cs ih =>
    intro acc
    rw [List.foldl_cons, List.filter_cons]
    by_cases hb : (c.mols.length == 0) = true
    · rw [if_pos hb, if_pos hb, ih, List.map_cons]
      simp [List.append_assoc]
    · rw [if_neg hb, if_neg hb]
      exact ih acc

theorem deal_with_failed_molecules_eq (contnrs : List MolContainer) :
    deal_with_failed_molecules contnrs
      = (contnrs.filter (fun c => c.mols.length == 0)).map
          (fun c => c.orig_smi ++ "\t" ++ c.name) := by
  simpa [deal_with_failed_molecules] using deal_with_failed_foldl contnrs []

theorem add_id_to_mols_spec (mols : List MyMol) : ∀ n : Nat,
    (add_id_to_mols mols n).1.map (fun m => getProp m.rdkit_props "UniqueID")
        = (List.range' (n + 1) mols.length).map (fun i => some (toString i))
    ∧ (add_id_to_mols mols n).2 = n + mols.length
    ∧ (add_id_to_mols mols n).1.length = mols.length := by
  induction mols with
  | nil => intro n; simp [add_id_to_mols]
  | cons m ms ih =>
    intro n
    obtain ⟨ih1, ih2, ih3⟩ := ih (n + 1)
    refine ⟨?_, ?_, ?_⟩
    · simp only [add_id_to_mols, List.map_cons, List.length_cons,
        List.range'_succ, getProp_setProp, ih1]
    · simp only [add_id_to_mols, ih2, List.length_cons]
      omega
    · simp only [add_id_to_mols, List.length_cons, ih3]

theorem add_mol_id_props_loop_spec (cs : List MolContainer) : ∀ n : Nat,
    ((add_mol_id_props_loop cs n).1.map (fun c => c.mols)).flatten.map
        (fun m => getProp m.rdkit_props "UniqueID")
      = (List.range' (n + 1) ((cs.map (fun c => c.mols.length)).sum)).map
          (fun i => some (toString i))
    ∧ (add_mol_id_props_loop cs n).2 = n + (cs.map (fun c => c.mols.length)).sum
    ∧ (add_mol_id_props_loop cs n).1.map (fun c => c.mols.length)
        = cs.map (fun c => c.mols.length)
    ∧ (add_mol_id_props_loop cs n).1.map (fun c => c.orig_smi)
        = cs.map (fun c => c.orig_smi)
    ∧ (add_mol_id_props_loop cs n).1.map (fun c => c.name)
        = cs.map (fun c => c.name)
    ∧ (add_mol_id_props_loop cs n).1.map (fun c => c.contnr_idx)
        = cs.map (fun c => c.contnr_idx) := by
  induction cs with
  | nil => intro n; simp [add_mol_id_props_loop]
  | cons c cs ih =>
    intro n
    obtain ⟨ha1, ha2, ha3⟩ := add_id_to_mols_spec c.mols n
    obtain ⟨ih1, ih2, ih3, ih4, ih5, ih6⟩ := ih ((add_id_to_mols c.mols n).2)
    rw [ha2] at ih1 ih2
    have hr : n + c.mols.length + 1 = (n + 1) + c.mols.length := by omega
    rw [hr] at ih1
    refine ⟨?_, ?_, ?_, ?_, ?_, ?_⟩
    · simp only [add_mol_id_props_loop, List.map_cons, List.flatten_cons,
        List.map_append, List.sum_cons, ha1]
      rw [ha2, ih1,
        ← range1_append c.mols.length (n + 1) ((cs.map (fun c => c.mols.length)).sum),
        List.map_append]
    · simp only [add_mol_id_props_loop, List.map_cons, List.sum_cons]
      rw [ha2, ih2]
      omega
    · simp only [add_mol_id_props_loop, List.map_cons, ih3, ha3]
    · simp only [add_mol_id_props_loop, List.map_cons, ih4]
    · simp only [add_mol_id_props_loop, List.map_cons, ih5]
    · simp only [add_mol_id_props_loop, List.map_cons, ih6]

theorem add_mol_id_props_uid (cs : List MolContainer) :
    ((add_mol_id_props cs).map (fun c => c.mols)).flatten.map
        (fun m => getProp m.rdkit_props "UniqueID")
      = (List.range' 1
            (((add_mol_id_props cs).map (fun c => c.mols)).flatten.length)).map
          (fun i => some (toString i)) := by
  obtain ⟨h1, _, h3, _, _, _⟩ := add_mol_id_props_loop_spec cs 0
  have hlen : ((add_mol_id_props cs).map (fun c => c.mols)).flatten.length
      = (cs.map (fun c => c.mols.length)).sum := by
    have hcomp : (List.length ∘ fun c : MolContainer => c.mols)
        = (fun c : MolContainer => c.mols.length) := rfl
    rw [List.length_flatten, List.map_map, hcomp]
    exact congrArg List.sum h3
  rw [hlen]
  simpa [add_mol_id_props] using h1

theorem add_mol_id_props_maps (cs : List MolContainer) :
    (add_mol_id_props cs).map (fun c => c.orig_smi) = cs.map (fun c => c.orig_smi)
    ∧ (add_mol_id_props cs).map (fun c => c.name) = cs.map (fun c => c.name)
    ∧ (add_mol_id_props cs).map (fun c => c.contnr_idx)
        = cs.map (fun c => c.contnr_idx) := by
  obtain ⟨_, _, _, h4, h5, h6⟩ := add_mol_id_props_loop_spec cs 0
  exact ⟨h4, h5, h6⟩

theorem commit_stage_maps (sf : MolContainer → List MyMol)
    (cs : List MolContainer) :
    (commit_stage sf cs).map (fun c => c.orig_smi) = cs.map (fun c => c.orig_smi)
    ∧ (commit_stage sf cs).map (fun c => c.name) = cs.map (fun c => c.name)
    ∧ (commit_stage sf cs).map (fun c => c.contnr_idx)
        = cs.map (fun c => c.contnr_idx) := by
  refine ⟨?_, ?_, ?_⟩ <;> (simp only [commit_stage, List.map_map]; rfl)

theorem build_loop_spec (env : Env) (data : List InputRecord) :
    ∀ (acc : List MolContainer) (idx : Nat) (evs evs2 : List Event)
      (l : List MolContainer) (n : Nat),
      build_loop env data acc idx evs = (evs2, .ok (l, n)) →
      ∃ d2 : List MolContainer,
        l = acc ++ d2
        ∧ d2.map (fun c => c.orig_smi)
            = (data.filter (record_accepted env)).map (fun r => r.smi)
        ∧ d2.map (fun c => c.name)
            = (data.filter (record_accepted env)).map (fun r => r.name)
        ∧ d2.map (fun c => c.contnr_idx) = List.range' idx d2.length
        ∧ (∀ c ∈ d2, c.orig_smi_canonical.isSome = true)
        ∧ n = idx + d2.length
        ∧ evs2 = evs ++ (List.range' idx d2.length).map Event.containerCreated := by
  induction data with
  | nil =>
    intro acc idx evs evs2 l n h
    simp only [build_loop, Prod.mk.injEq, Except.ok.injEq] at h
    obtain ⟨he, hl, hn⟩ := h
    exact ⟨[], by simp [← he, ← hl, ← hn]⟩
  | cons r rest ih =>
    intro acc idx evs evs2 l n h
    cases hp : env.parse_nosanitize r.smi with
    | none =>
      simp only [build_loop, detect_unassigned_bonds, hp] at h
      simp at h
    | some bonds =>
      cases hb : bonds.any (fun b => b == 0) with
      | true =>
        have hacc : record_accepted env r = false := by
          simp [record_accepted, hp, hb]
        simp only [build_loop, detect_unassigned_bonds, hp, hb, if_true] at h
        obtain ⟨d2, h1, h2, h3, h4, h5, h6, h7⟩ := ih acc idx evs evs2 l n h
        exact ⟨d2, h1, by simpa [List.filter_cons, hacc] using h2,
          by simpa [List.filter_cons, hacc] using h3, h4, h5, h6, h7⟩
      | false =>
        simp only [build_loop, detect_unassigned_bonds, hp, hb,
          Bool.false_eq_true, if_false] at h
        cases hc : env.canonicalize r.smi with
        | none =>
          have hacc : record_accepted env r = false := by
            simp [record_accepted, hp, hb, hc]
          have hcan : (mkMolContainer env r.smi r.name idx r.props).orig_smi_canonical
              = none := by simp [mkMolContainer, hc]
          rw [hcan] at h
          simp only [Option.isNone_none, if_true] at h
          obtain ⟨d2, h1, h2, h3, h4, h5, h6, h7⟩ := ih acc idx evs evs2 l n h
          exact ⟨d2, h1, by simpa [List.filter_cons, hacc] using h2,
            by simpa [List.filter_cons, hacc] using h3, h4, h5, h6, h7⟩
        | some cansmi =>
          have hacc : record_accepted env r = true := by
            simp [record_accepted, hp, hb, hc]
          have hcan : (mkMolContainer env r.smi r.name idx r.props).orig_smi_canonical
              = some cansmi := by simp [mkMolContainer, hc]
          rw [hcan] at h
          simp only [Option.isNone_some, Bool.false_eq_true, if_false] at h
          obtain ⟨d2, h1, h2, h3, h4, h5, h6, h7⟩ := ih _ _ _ evs2 l n h
          refine ⟨mkMolContainer env r.smi r.name idx r.props :: d2,
            ?_, ?_, ?_, ?_, ?_, ?_, ?_⟩
          · rw [h1]
            simp
          · simp [List.filter_cons, hacc, h2, mkMolContainer]
          · simp [List.filter_cons, hacc, h3, mkMolContainer]
          · simp [List.range'_succ, h4, mkMolContainer]
          · intro c hcmem
            rcases List.mem_cons.mp hcmem with hcm | hcm
            · rw [hcm, hcan]
              rfl
            · exact h5 c hcm
          · simp only [List.length_cons]
            omega
          · rw [h7, List.length_cons, List.range'_succ, List.map_cons]
            simp

theorem build_loop_error_attr (env : Env) (data : List InputRecord) :
    ∀ (acc : List MolContainer) (idx : Nat) (evs evs2 : List Event) (e : PyError),
      build_loop env data acc idx evs = (evs2, .error e) → e = .attributeErr := by
  induction data with
  | nil =>
    intro acc idx evs evs2 e h
    simp [build_loop] at h
  | cons r rest ih =>
    intro acc idx evs evs2 e h
    cases hp : env.parse_nosanitize r.smi with
    | none =>
      simp only [build_loop, detect_unassigned_bonds, hp, Prod.mk.injEq,
        Except.error.injEq] at h
      exact h.2.symm
    | some bonds =>
      cases hb : bonds.any (fun b => b == 0) with
      | true =>
        simp only [build_loop, detect_unassigned_bonds, hp, hb, if_true] at h
        exact ih acc idx evs evs2 e h
      | false =>
        simp only [build_loop, detect_unassigned_bonds, hp, hb,
          Bool.false_eq_true, if_false] at h
        cases hc : env.canonicalize r.smi with
        | none =>
          have hcan : (mkMolContainer env r.smi r.name idx r.props).orig_smi_canonical
              = none := by simp [mkMolContainer, hc]
          rw [hcan] at h
          simp only [Option.isNone_none, if_true] at h
          exact ih acc idx evs evs2 e h
        | some cansmi =>
          have hcan : (mkMolContainer env r.smi r.name idx r.props).orig_smi_canonical
              = some cansmi := by simp [mkMolContainer, hc]
          rw [hcan] at h
          simp only [Option.isNone_some, Bool.false_eq_true, if_false] at h
          exact ih _ _ _ evs2 e h

theorem build_containers_spec (env : Env) (data : List InputRecord)
    (evs : List Event) (l : List MolContainer)
    (h : build_containers env data = (evs, .ok l)) :
    l.map (fun c => c.orig_smi)
        = (data.filter (record_accepted env)).map (fun r => r.smi)
    ∧ l.map (fun c => c.name)
        = (data.filter (record_accepted env)).map (fun r => r.name)
    ∧ l.map (fun c => c.contnr_idx) = List.range l.length
    ∧ (∀ c ∈ l, c.orig_smi_canonical.isSome = true)
    ∧ evs = (List.range l.length).map Event.containerCreated := by
  cases hb : build_loop env data [] 0 [] with
  | mk evs1 res =>
    cases res with
    | error e =>
      simp only [build_containers, hb] at h
      simp at h
    | ok p =>
      obtain ⟨contnrs, idx⟩ := p
      obtain ⟨d2, h1, h2, h3, h4, h5, h6, h7⟩ :=
        build_loop_spec env data [] 0 [] evs1 contnrs idx hb
      rw [List.nil_append] at h1
      subst h1
      have hfil : contnrs.filter (fun c => c.orig_smi_canonical.isSome)
          = contnrs := List.filter_eq_self.mpr h5
      simp only [build_containers, hb] at h
      rw [hfil, if_neg (by omega)] at h
      simp only [Prod.mk.injEq, Except.ok.injEq] at h
      obtain ⟨hevs, hl⟩ := h
      subst hl
      subst hevs
      refine ⟨h2, h3, ?_, h5, ?_⟩
      · rw [List.range_eq_range']
        exact h4
      · rw [h7, List.nil_append, List.range_eq_range']

theorem prepare_core_ok_shape (env : Env) (sf1 sf2 : MolContainer → List MyMol)
    (mode : String) (data : List InputRecord) (evs : List Event)
    (contnrsF : List MolContainer) (failed : List String)
    (h : prepare_molecules_core env sf1 sf2 mode data
        = (evs, .ok (contnrsF, failed))) :
    ∃ (evb : List Event) (contnrs0 : List MolContainer),
      build_containers env data = (evb, .ok contnrs0)
      ∧ contnrsF = add_mol_id_props (commit_stage sf2 (commit_stage sf1 contnrs0))
      ∧ failed = deal_with_failed_molecules contnrsF
      ∧ evs = Event.parallelizerInit mode :: (evb
          ++ [Event.stageDispatch "prepare_smiles",
              Event.stageDispatch "prepare_3d", Event.assignIds,
              Event.collectFailures]) := by
  cases hb : build_containers env data with
  | mk evb res =>
    cases res with
    | error e =>
      simp only [prepare_molecules_core, hb] at h
      simp at h
    | ok contnrs0 =>
      simp only [prepare_molecules_core, hb, Prod.mk.injEq, Except.ok.injEq] at h
      obtain ⟨hevs, hc, hf⟩ := h
      subst hc
      refine ⟨evb, contnrs0, rfl, rfl, hf.symm ▸ rfl, ?_⟩
      rw [← hevs]
      simp

theorem prepare_molecules_ok_core (env : Env) (sf1 sf2 : MolContainer → List MyMol)
    (args : List (String × PyVal)) (data : List InputRecord) (evs : List Event)
    (contnrsF : List MolContainer) (failed : List String)
    (h : prepare_molecules env sf1 sf2 args data = (evs, .ok (contnrsF, failed))) :
    ∃ mode : String,
      prepare_molecules_core env sf1 sf2 mode data
        = (evs, .ok (contnrsF, failed)) := by
  cases hsp : set_parameters args with
  | error e =>
    simp only [prepare_molecules, hsp] at h
    simp at h
  | ok params0 =>
    simp only [prepare_molecules, hsp] at h
    repeat
      first
      | exact ⟨_, h⟩
      | (split at h)
      | (simp at h)

theorem pvEqStr_eq {v : PyVal} {s : String} (h : pvEqStr v s = true) :
    v = .str s := by
  cases v with
  | str t =>
    simp only [pvEqStr, beq_iff_eq] at h
    rw [h]
  | int n => simp [pvEqStr] at h
  | float q => simp [pvEqStr] at h
  | bool b => simp [pvEqStr] at h

theorem make_type_entry_isSome (v : PyVal) : (make_type_entry v).isSome = true := by
  cases v <;> rfl

theorem make_type_dict_ok (d : List (String × PyVal)) :
    ∃ td, make_type_dict d = .ok td := by
  induction d with
  | nil => exact ⟨[], rfl⟩
  | cons p ps ih =>
    obtain ⟨td, htd⟩ := ih
    cases hv : make_type_entry p.2 with
    | none =>
      have := make_type_entry_isSome p.2
      rw [hv] at this
      simp at this
    | some t => exact ⟨(p.1, t) :: td, by simp [make_type_dict, hv, htd]⟩

theorem lookupTD_make (d : List (String × PyVal)) :
    ∀ (td : List (String × PyType)), make_type_dict d = .ok td →
    ∀ k : String, lookupTD td k = (lookupPV d k).bind make_type_entry := by
  induction d with
  | nil =>
    intro td h k
    simp only [make_type_dict, Except.ok.injEq] at h
    subst h
    simp [lookupTD, lookupPV]
  | cons p ps ih =>
    intro td h k
    cases hv : make_type_entry p.2 with
    | none => simp [make_type_dict, hv] at h
    | some t =>
      cases hd : make_type_dict ps with
      | error e => simp [make_type_dict, hv, hd] at h
      | ok td2 =>
        simp only [make_type_dict, hv, hd, Except.ok.injEq] at h
        subst h
        by_cases hk : (p.1 == k) = true
        · simp [lookupTD, lookupPV, hk, hv]
        · simp only [lookupTD, lookupPV, hk, Bool.false_eq_true, if_false]
          exact ih td2 hd k

theorem lookupPV_updatePV_isSome (d : List (String × PyVal)) (k : String)
    (v : PyVal) (hk : (lookupPV d k).isSome = true) (k2 : String) :
    (lookupPV (updatePV d k v) k2).isSome = (lookupPV d k2).isSome := by
  induction d with
  | nil => simp [lookupPV] at hk
  | cons p ps ih =>
    by_cases h1 : (p.1 == k) = true
    · have hpk : p.1 = k := by simpa using h1
      simp only [updatePV, h1, if_true]
      by_cases h2 : (k == k2) = true
      · simp [lookupPV, h2, hpk]
      · simp only [lookupPV, h2, Bool.false_eq_true, if_false, hpk]
    · simp only [lookupPV, h1, Bool.false_eq_true, if_false] at hk
      simp only [updatePV, h1, Bool.false_eq_true, if_false]
      by_cases h2 : (p.1 == k2) = true
      · simp [lookupPV, h2]
      · simp only [lookupPV, h2, Bool.false_eq_true, if_false]
        exact ih hk

theorem merge_step_ok (td : List (String × PyType)) (d : List (String × PyVal))
    (kv : String × PyVal) (d2 : List (String × PyVal))
    (h : merge_step td d kv = .ok d2) :
    ∃ w, d2 = updatePV d kv.1 w ∧ (lookupPV d kv.1).isSome = true := by
  unfold merge_step at h
  cases hl : lookupPV d kv.1 with
  | none => rw [hl] at h; simp at h
  | some pv =>
    rw [hl] at h
    cases htd : lookupTD td kv.1 with
    | none => rw [htd] at h; simp at h
    | some t =>
      rw [htd] at h
      dsimp only at h
      by_cases hi : isinstance kv.2 t = true
      · rw [if_pos hi] at h
        simp only [Except.ok.injEq] at h
        exact ⟨kv.2, h.symm, rfl⟩
      · rw [if_neg hi] at h
        by_cases hw : (pytype kv.2 == PyType.int && t == PyType.float) = true
        · rw [if_pos hw] at h
          simp only [Except.ok.injEq] at h
          exact ⟨pyFloatOfInt kv.2, h.symm, rfl⟩
        · rw [if_neg hw] at h
          simp at h

theorem merge_loop_err (td : List (String × PyType))
    (htd : ∀ k2, lookupTD td k2 = (lookupPV default_params k2).bind make_type_entry)
    (k : String) (v : PyVal) (hbad : merge_entry_ok k v = false) :
    ∀ (l d : List (String × PyVal)),
      (∀ k2, (lookupPV d k2).isSome = (lookupPV default_params k2).isSome) →
      (k, v) ∈ l →
      ∃ e, merge_loop td l d = .error e := by
  intro l
  induction l with
  | nil =>
    intro d _ hmem
    simp at hmem
  | cons kv rest ih =>
    intro d hinv hmem
    rcases List.mem_cons.mp hmem with heq | hmem2
    · subst heq
      unfold merge_entry_ok at hbad
      cases hdef : lookupPV default_params k with
      | none =>
        have hd0 : (lookupPV d k).isSome = false := by
          rw [hinv k, hdef]
          rfl
        have hnone : lookupPV d k = none := by
          cases hl : lookupPV d k
          · rfl
          · rw [hl] at hd0; simp at hd0
        exact ⟨.keyErr k, by simp [merge_loop, merge_step, hnone]⟩
      | some dv =>
        rw [hdef] at hbad
        dsimp only at hbad
        have hd1 : (lookupPV d k).isSome = true := by
          rw [hinv k, hdef]
          rfl
        obtain ⟨w, hw⟩ := Option.isSome_iff_exists.mp hd1
        cases hte : make_type_entry dv with
        | none =>
          have htdk : lookupTD td k = none := by
            rw [htd k, hdef]
            simp [hte]
          exact ⟨.keyErr k, by simp [merge_loop, merge_step, hw, htdk]⟩
        | some t =>
          rw [hte] at hbad
          dsimp only at hbad
          have htdk : lookupTD td k = some t := by
            rw [htd k, hdef]
            simp [hte]
          have hb1 : isinstance v t = false := by
            cases hx : isinstance v t
            · rfl
            · rw [hx] at hbad; simp at hbad
          have hb2 : (pytype v == PyType.int && t == PyType.float) = false := by
            cases hx : (pytype v == PyType.int && t == PyType.float)
            · rfl
            · rw [hx] at hbad; simp at hbad
          exact ⟨.typeErr k,
            by simp [merge_loop, merge_step, hw, htdk, hb1, hb2]⟩
    · cases hstep : merge_step td d kv with
      | error e => exact ⟨e, by simp [merge_loop, hstep]⟩
      | ok d2 =>
        obtain ⟨w, hd2, hsome⟩ := merge_step_ok td d kv d2 hstep
        have hd2inv : ∀ k2, (lookupPV d2 k2).isSome
            = (lookupPV default_params k2).isSome := by
          intro k2
          rw [hd2, lookupPV_updatePV_isSome d kv.1 w hsome k2, hinv k2]
        obtain ⟨e, he⟩ := ih d2 hd2inv hmem2
        exact ⟨e, by simp [merge_loop, hstep, he]⟩

theorem merge_parameters_err (params : List (String × PyVal)) (k : String)
    (v : PyVal) (hmem : (k, v) ∈ params) (hbad : merge_entry_ok k v = false) :
    ∃ e, merge_parameters default_params params = .error e := by
  obtain ⟨td, htd⟩ := make_type_dict_ok default_params
  obtain ⟨e, he⟩ := merge_loop_err td (lookupTD_make default_params td htd) k v
    hbad params default_params (fun _ => rfl) hmem
  exact ⟨e, by simp [merge_parameters, htd, he]⟩

/-! ## The claims -/

/-- Claim C10: the `Exception("There is a corrupted container")` raised at
Start.py line 173 is unreachable.  For every environment and input list,
container construction never returns that error: a container is appended
(and the identity counter incremented) only when its canonical SMILES is
already a non-None string, so the post-loop non-None filter removes nothing
and the surviving count always equals the counter. -/
theorem corrupted_container_unreachable (env : Env)
    (smiles_data : List InputRecord) :
    isCorrupted (build_containers env smiles_data).2 = false := by
  cases hb : build_loop env smiles_data [] 0 [] with
  | mk evs1 res =>
    cases res with
    | error e =>
      have he : e = .attributeErr :=
        build_loop_error_attr env smiles_data [] 0 [] evs1 e hb
      subst he
      simp [build_containers, hb, isCorrupted]
    | ok p =>
      obtain ⟨contnrs, idx⟩ := p
      obtain ⟨d2, h1, h2, h3, h4, h5, h6, h7⟩ :=
        build_loop_spec env smiles_data [] 0 [] evs1 contnrs idx hb
      rw [List.nil_append] at h1
      subst h1
      have hfil : contnrs.filter (fun c => c.orig_smi_canonical.isSome)
          = contnrs := List.filter_eq_self.mpr h5
      simp only [build_containers, hb, hfil]
      rw [if_neg (by omega)]
      rfl

/-- Claim C7: container identities are assigned exactly once at creation
(one `containerCreated` event per accepted container, in order), take the
values 0, 1, 2, ... in acceptance order with no value reused and no gaps —
rejected records consume no identity — and are never reassigned afterwards:
any stage commit (including one that discards every variant) and the
final-identifier pass leave every container's identity unchanged. -/
theorem container_identities_spec (env : Env)
    (smiles_data : List InputRecord) (evs : List Event)
    (contnrs : List MolContainer)
    (h : build_containers env smiles_data = (evs, .ok contnrs)) :
    contnrs.map (fun c => c.contnr_idx) = List.range contnrs.length
    ∧ evs = (List.range contnrs.length).map Event.containerCreated
    ∧ (∀ sf : MolContainer → List MyMol,
        (commit_stage sf contnrs).map (fun c => c.contnr_idx)
          = contnrs.map (fun c => c.contnr_idx))
    ∧ (add_mol_id_props contnrs).map (fun c => c.contnr_idx)
        = contnrs.map (fun c => c.contnr_idx) := by
  obtain ⟨_, _, h3, _, h5⟩ := build_containers_spec env smiles_data evs contnrs h
  exact ⟨h3, h5, fun sf => (commit_stage_maps sf contnrs).2.2,
    (add_mol_id_props_maps contnrs).2.2⟩

/-- Witness for claim C7, at a concrete two-record build. -/
theorem container_identities_witness :
    buildw_contnrs.map (fun c => c.contnr_idx) = List.range buildw_contnrs.length
    ∧ buildw.1 = (List.range buildw_contnrs.length).map Event.containerCreated
    ∧ (∀ sf : MolContainer → List MyMol,
        (commit_stage sf buildw_contnrs).map (fun c => c.contnr_idx)
          = buildw_contnrs.map (fun c => c.contnr_idx))
    ∧ (add_mol_id_props buildw_contnrs).map (fun c => c.contnr_idx)
        = buildw_contnrs.map (fun c => c.contnr_idx) :=
  container_identities_spec env0 data0 buildw.1 buildw_contnrs rfl

/-- Claim C3, evaluated at the failing input: a record whose SMILES `"C("`
is syntactically unparsable (`Chem.MolFromSmiles(.., sanitize=False)`
returns None) is not dropped with a warning — `detect_unassigned_bonds`
dereferences the failed parse and the resulting AttributeError aborts
container construction before the remaining record is processed — while the
remaining record alone is accepted as container 0. -/
theorem unparsable_record_aborts_run :
    build_containers env_badparse
        [{ smi := "C(", name := "lig1", props := [] },
          { smi := "CCO", name := "lig2", props := [] }]
      = ([], .error .attributeErr)
    ∧ (build_containers env_badparse
          [{ smi := "CCO", name := "lig2", props := [] }]).2
        = .ok [mkMolContainer env_badparse "CCO" "lig2" 0 []] :=
  ⟨rfl, rfl⟩

/-- Claim C2, evaluated at the failing input: `load_sdf_file` returns two
records that both keep the display name "ligand1" — its duplicate-name
handling is nested inside the unnamed-ligand branch and never runs for
named records — whereas `load_smiles_file` renames the second duplicate to
"ligand1_copy_2" as the claim describes. -/
theorem sdf_duplicate_names_kept :
    (load_sdf_file [{ smiles := "CCO", name := "ligand1", props := [] },
        { smiles := "CCO", name := "ligand1", props := [] }]).map
        (fun r => r.name)
      = ["ligand1", "ligand1"]
    ∧ (load_smiles_file ["CCO ligand1", "CCO ligand1"]).map (fun r => r.name)
      = ["ligand1", "ligand1_copy_2"] :=
  ⟨rfl, rfl⟩

/-- Claim C4, counterexample: supplying the Boolean True for
"num_processors", whose default is the integer -1, is a value whose Python
type (bool) differs from the default's (int) and is not the permitted
integer-to-real widening — yet `merge_parameters` accepts it unchanged
instead of raising, because `isinstance` treats bool as a subtype of int.
So the claimed "exactly one exception" is false. -/
theorem bool_for_int_accepted :
    lookupPV default_params "num_processors" = some (PyVal.int (-1))
    ∧ pytype (PyVal.bool true) ≠ pytype (PyVal.int (-1))
    ∧ pytype (PyVal.bool true) ≠ PyType.int
    ∧ merge_parameters default_params [("num_processors", PyVal.bool true)]
        = .ok (updatePV default_params "num_processors" (PyVal.bool true))
    ∧ lookupPV (updatePV default_params "num_processors" (PyVal.bool true))
        "num_processors" = some (PyVal.bool true) :=
  ⟨rfl, by decide, by decide, rfl, rfl⟩

/-- Claim C4, amended: configuration merging raises an error for any key
not among the recognized defaults, and for any value that fails Python's
`isinstance` test against the default value's type unless it is an integer
supplied where a real number is expected (which is widened); a Boolean
supplied where an integer is expected passes `isinstance` (bool being a
Python int subtype) and is therefore also accepted silently.  Whenever
`set_parameters` fails, `prepare_molecules` raises before anything happens:
its event trace is empty — no parallelizer, no container, no dispatch. -/
theorem merge_rejects_bad_entries (params : List (String × PyVal))
    (k : String) (v : PyVal) (hmem : (k, v) ∈ params)
    (hbad : merge_entry_ok k v = false) :
    (∃ e, merge_parameters default_params params = .error e)
    ∧ (∀ (env : Env) (sf1 sf2 : MolContainer → List MyMol)
          (args2 : List (String × PyVal)) (data : List InputRecord),
        (set_parameters args2).isOk = false →
        (prepare_molecules env sf1 sf2 args2 data).1 = []
        ∧ (prepare_molecules env sf1 sf2 args2 data).2.isOk = false) := by
  refine ⟨merge_parameters_err params k v hmem hbad, ?_⟩
  intro env sf1 sf2 args2 data hfail
  cases hsp : set_parameters args2 with
  | error e =>
    refine ⟨by simp [prepare_molecules, hsp], ?_⟩
    simp only [prepare_molecules, hsp]
    rfl
  | ok p =>
    rw [hsp] at hfail
    exact Bool.noConfusion hfail

/-- Witness for the amended claim C4, at a concrete unrecognized key. -/
theorem merge_rejects_bad_entries_witness :
    ∃ e, merge_parameters default_params [("bogus_option", PyVal.int 7)]
        = .error e :=
  (merge_rejects_bad_entries [("bogus_option", PyVal.int 7)] "bogus_option"
    (PyVal.int 7) (by simp) (by rfl)).1

/-- Claim C5: whenever the resolved multithread_mode is "mpi" and the
mpi4py runtime is unavailable, `prepare_molecules` raises the ImportError
at startup: the returned event trace is empty — so no parallelizer was
constructed, no container was created and no stage was dispatched — and
the result is the error, never a run silently degraded to the serial
backend. -/
theorem mpi_missing_is_fatal (env : Env) (sf1 sf2 : MolContainer → List MyMol)
    (args : List (String × PyVal)) (data : List InputRecord)
    (hmode : resolved_mode_is args "mpi" = true)
    (hmpi : env.mpi4py_available = false) :
    prepare_molecules env sf1 sf2 args data = ([], .error .importErr) := by
  unfold resolved_mode_is at hmode
  cases hsp : set_parameters args with
  | error e =>
    rw [hsp] at hmode
    simp at hmode
  | ok p =>
    rw [hsp] at hmode
    dsimp only at hmode
    have hv : getPV p "multithread_mode" = .str "mpi" := pvEqStr_eq hmode
    have hser : pvEqStr (getPV p "multithread_mode") "serial" = false := by
      rw [hv]
      rfl
    have hcond : (pvEqStr (getPV p "multithread_mode") "mpi"
        && !env.mpi4py_available) = true := by
      rw [hv, hmpi]
      rfl
    simp only [prepare_molecules, hsp, hser, Bool.false_eq_true, if_false,
      hcond, if_true]

/-- Witness for claim C5: a concrete mpi-mode run without mpi4py. -/
theorem mpi_missing_is_fatal_witness :
    prepare_molecules env_mpi_missing sf_none sf_none args_mpi data0
      = ([], .error .importErr) :=
  mpi_missing_is_fatal env_mpi_missing sf_none sf_none args_mpi data0 rfl rfl

/-- Claim C1: for every successful run, a container contributes a failure
record exactly when it ends the run with zero surviving molecules, exactly
one record per such container (the list is the filtered registry mapped to
its lines); the record is the container's original (untransformed) input
structure, one tab, and its display name — the containers' `orig_smi` and
`name` are exactly those of the accepted input records, untouched by the
stages; the companion file's content is the newline-join of these records,
written only when at least one container failed; and when no input carries
a newline every record occupies exactly one line. -/
theorem failure_records_spec (env : Env) (sf1 sf2 : MolContainer → List MyMol)
    (args : List (String × PyVal)) (data : List InputRecord)
    (evs : List Event) (contnrsF : List MolContainer) (failed : List String)
    (h : prepare_molecules env sf1 sf2 args data = (evs, .ok (contnrsF, failed))) :
    failed = (contnrsF.filter (fun c => c.mols.length == 0)).map
        (fun c => c.orig_smi ++ "\t" ++ c.name)
    ∧ contnrsF.map (fun c => c.orig_smi)
        = (data.filter (record_accepted env)).map (fun r => r.smi)
    ∧ contnrsF.map (fun c => c.name)
        = (data.filter (record_accepted env)).map (fun r => r.name)
    ∧ failure_file_content contnrsF
        = (if failed = [] then none else some (joinWith "\n" failed))
    ∧ ((∀ r ∈ data, '\n' ∉ r.smi.data ∧ '\n' ∉ r.name.data) →
        ∀ s ∈ failed, '\n' ∉ s.data) := by
  obtain ⟨mode, hcore⟩ :=
    prepare_molecules_ok_core env sf1 sf2 args data evs contnrsF failed h
  obtain ⟨evb, contnrs0, hbc, hc3, hfail, hevs⟩ :=
    prepare_core_ok_shape env sf1 sf2 mode data evs contnrsF failed hcore
  obtain ⟨hsmi0, hname0, _, _, _⟩ :=
    build_containers_spec env data evb contnrs0 hbc
  have hsmi : contnrsF.map (fun c => c.orig_smi)
      = (data.filter (record_accepted env)).map (fun r => r.smi) := by
    rw [hc3, (add_mol_id_props_maps _).1, (commit_stage_maps _ _).1,
      (commit_stage_maps _ _).1, hsmi0]
  have hname : contnrsF.map (fun c => c.name)
      = (data.filter (record_accepted env)).map (fun r => r.name) := by
    rw [hc3, (add_mol_id_props_maps _).2.1, (commit_stage_maps _ _).2.1,
      (commit_stage_maps _ _).2.1, hname0]
  have hfeq : failed = (contnrsF.filter (fun c => c.mols.length == 0)).map
      (fun c => c.orig_smi ++ "\t" ++ c.name) := by
    rw [hfail, deal_with_failed_molecules_eq]
  refine ⟨hfeq, hsmi, hname, ?_, ?_⟩
  · unfold failure_file_content
    rw [← hfail]
    cases failed with
    | nil => rfl
    | cons s rest => simp
  · intro hnl s hs
    rw [hfeq] at hs
    obtain ⟨c, hcmem, hcs⟩ := List.mem_map.mp hs
    have hcF : c ∈ contnrsF := List.mem_of_mem_filter hcmem
    have h1 : c.orig_smi ∈ contnrsF.map (fun c => c.orig_smi) :=
      List.mem_map_of_mem _ hcF
    rw [hsmi] at h1
    obtain ⟨r1, hr1mem, hr1⟩ := List.mem_map.mp h1
    have h2 : c.name ∈ contnrsF.map (fun c => c.name) :=
      List.mem_map_of_mem _ hcF
    rw [hname] at h2
    obtain ⟨r2, hr2mem, hr2⟩ := List.mem_map.mp h2
    have hr1d := (hnl r1 (List.mem_of_mem_filter hr1mem)).1
    have hr2d := (hnl r2 (List.mem_of_mem_filter hr2mem)).2
    rw [← hcs]
    intro hcontra
    rw [String.data_append, String.data_append] at hcontra
    rcases List.mem_append.mp hcontra with hx | hx
    · rcases List.mem_append.mp hx with hy | hy
      · rw [hr1] at hr1d
        exact hr1d hy
      · exact absurd hy (by decide)
    · rw [hr2] at hr2d
      exact hr2d hx

/-- Witness for claim C1, at a concrete run in which both stages discard
every variant, so both containers fail. -/
theorem failure_records_witness :
    run0_failed = (run0_contnrs.filter (fun c => c.mols.length == 0)).map
        (fun c => c.orig_smi ++ "\t" ++ c.name)
    ∧ run0_contnrs.map (fun c => c.orig_smi)
        = (data0.filter (record_accepted env0)).map (fun r => r.smi)
    ∧ run0_contnrs.map (fun c => c.name)
        = (data0.filter (record_accepted env0)).map (fun r => r.name)
    ∧ failure_file_content run0_contnrs
        = (if run0_failed = [] then none else some (joinWith "\n" run0_failed))
    ∧ ((∀ r ∈ data0, '\n' ∉ r.smi.data ∧ '\n' ∉ r.name.data) →
        ∀ s ∈ run0_failed, '\n' ∉ s.data) :=
  failure_records_spec env0 sf_none sf_none args_src data0 run0.1
    run0_contnrs run0_failed rfl

/-- Claim C6: on every successful run the identifier pass happens exactly
once, after both stage dispatches (the trace ends with the `assignIds`
event followed only by failure collection, and `assignIds` occurs nowhere
earlier), and it stamps every surviving molecule of every container, in
traversal order, with UniqueID "1", "2", "3", ... — globally unique and
strictly increasing, from the single counter of `add_mol_id_props`. -/
theorem unique_id_pass_spec (env : Env) (sf1 sf2 : MolContainer → List MyMol)
    (args : List (String × PyVal)) (data : List InputRecord)
    (evs : List Event) (contnrsF : List MolContainer) (failed : List String)
    (h : prepare_molecules env sf1 sf2 args data = (evs, .ok (contnrsF, failed))) :
    (∃ pre, evs = pre ++ [Event.assignIds, Event.collectFailures]
        ∧ Event.assignIds ∉ pre)
    ∧ (contnrsF.map (fun c => c.mols)).flatten.map
          (fun m => getProp m.rdkit_props "UniqueID")
        = (List.range' 1 ((contnrsF.map (fun c => c.mols)).flatten.length)).map
            (fun i => some (toString i)) := by
  obtain ⟨mode, hcore⟩ :=
    prepare_molecules_ok_core env sf1 sf2 args data evs contnrsF failed h
  obtain ⟨evb, contnrs0, hbc, hc3, hfail, hevs⟩ :=
    prepare_core_ok_shape env sf1 sf2 mode data evs contnrsF failed hcore
  obtain ⟨_, _, _, _, hevb⟩ := build_containers_spec env data evb contnrs0 hbc
  constructor
  · refine ⟨Event.parallelizerInit mode :: (evb
        ++ [Event.stageDispatch "prepare_smiles",
            Event.stageDispatch "prepare_3d"]), ?_, ?_⟩
    · rw [hevs]
      simp
    · rw [hevb]
      simp
  · rw [hc3]
    exact add_mol_id_props_uid _

/-- Witness for claim C6, at the same concrete run as the C1 witness. -/
theorem unique_id_pass_witness :
    (∃ pre, run0.1 = pre ++ [Event.assignIds, Event.collectFailures]
        ∧ Event.assignIds ∉ pre)
    ∧ (run0_contnrs.map (fun c => c.mols)).flatten.map
          (fun m => getProp m.rdkit_props "UniqueID")
        = (List.range' 1 ((run0_contnrs.map (fun c => c.mols)).flatten.length)).map
            (fun i => some (toString i)) :=
  unique_id_pass_spec env0 sf_none sf_none args_src data0 run0.1
    run0_contnrs run0_failed rfl

theorem addH_finalize_genealogy (contnr : MolContainer) (orig Hm : MyMol) :
    (addH_finalize contnr orig Hm).genealogy
      = orig.genealogy ++ (if Hm.smiles_noarg ≠ orig.smiles_noarg
          then [Hm.smiles_canon ++ " (protonated)"] else [])
    ∧ (addH_finalize contnr orig Hm).smiles_noarg = Hm.smiles_noarg
    ∧ (addH_finalize contnr orig Hm).smiles_canon = Hm.smiles_canon
    ∧ (addH_finalize contnr orig Hm).name = orig.name
    ∧ (addH_finalize contnr orig Hm).contnr_idx = contnr.contnr_idx := by
  by_cases hne : Hm.smiles_noarg ≠ orig.smiles_noarg
  · refine ⟨?_, ?_, ?_, ?_, ?_⟩ <;>
      simp [addH_finalize, inherit_contnr_props, hne]
  · refine ⟨?_, ?_, ?_, ?_, ?_⟩ <;>
      simp [addH_finalize, inherit_contnr_props, hne]

/-- Claim C8: every variant returned by a successful `parallel_add_H` call
extends the original molecule's genealogy append-only — the original's
genealogy is a prefix, the variant's genealogy is exactly that list plus at
most one new `(protonated)` entry, the entry is appended exactly when the
variant's structure differs from the original's — and therefore the lineage
still starts from whatever original structure description heads the
original molecule's genealogy. -/
theorem protonation_lineage_spec
    (protonate : ProtSettings → String → List String)
    (mkAddH : String → Option MyMol) (contnr : MolContainer)
    (ps : ProtSettings) (mols : List MyMol) (m : MyMol)
    (h : parallel_add_H protonate mkAddH contnr ps = .ok mols)
    (hm : m ∈ mols) :
    contnr.mol_orig_frm_inp_smi.genealogy <+: m.genealogy
    ∧ m.genealogy = contnr.mol_orig_frm_inp_smi.genealogy
        ++ (if m.smiles_noarg ≠ contnr.mol_orig_frm_inp_smi.smiles_noarg
            then [m.smiles_canon ++ " (protonated)"] else [])
    ∧ (m.genealogy ≠ contnr.mol_orig_frm_inp_smi.genealogy
        ↔ m.smiles_noarg ≠ contnr.mol_orig_frm_inp_smi.smiles_noarg)
    ∧ (∀ d, contnr.mol_orig_frm_inp_smi.genealogy.head? = some d →
        m.genealogy.head? = some d) := by
  unfold parallel_add_H at h
  cases hcan : contnr.orig_smi_canonical with
  | none =>
    rw [hcan] at h
    simp at h
  | some smi =>
    rw [hcan] at h
    dsimp only at h
    simp only [Except.ok.injEq] at h
    rw [← h] at hm
    obtain ⟨Hm, hHmmem, hfm⟩ := List.mem_map.mp hm
    obtain ⟨hg, hs, hc, _, _⟩ :=
      addH_finalize_genealogy contnr contnr.mol_orig_frm_inp_smi Hm
    rw [hfm] at hg hs hc
    have hgm : m.genealogy = contnr.mol_orig_frm_inp_smi.genealogy
        ++ (if m.smiles_noarg ≠ contnr.mol_orig_frm_inp_smi.smiles_noarg
            then [m.smiles_canon ++ " (protonated)"] else []) := by
      rw [hg, hs, hc]
    refine ⟨?_, hgm, ?_, ?_⟩
    · rw [hgm]
      exact List.prefix_append _ _
    · constructor
      · intro hne
        by_contra hsame
        rw [hgm] at hne
        simp [hsame] at hne
      · intro hne heq
        rw [hgm, if_pos hne] at heq
        have := congrArg List.length heq
        simp at this
    · intro d hd
      rw [hgm]
      by_cases hne : m.smiles_noarg ≠ contnr.mol_orig_frm_inp_smi.smiles_noarg
      · rw [if_pos hne]
        cases hgen : contnr.mol_orig_frm_inp_smi.genealogy with
        | nil => rw [hgen] at hd; simp at hd
        | cons a t =>
          rw [hgen] at hd
          simp only [List.head?] at hd
          simp [hd]
      · rw [if_neg hne]
        simp [hd]

/-- Witness for claim C8, at a concrete protonation call whose oracle
produces one variant with a different structure. -/
theorem protonation_lineage_witness :
    contnr_w.mol_orig_frm_inp_smi.genealogy <+: m_w.genealogy
    ∧ m_w.genealogy = contnr_w.mol_orig_frm_inp_smi.genealogy
        ++ (if m_w.smiles_noarg ≠ contnr_w.mol_orig_frm_inp_smi.smiles_noarg
            then [m_w.smiles_canon ++ " (protonated)"] else [])
    ∧ (m_w.genealogy ≠ contnr_w.mol_orig_frm_inp_smi.genealogy
        ↔ m_w.smiles_noarg ≠ contnr_w.mol_orig_frm_inp_smi.smiles_noarg)
    ∧ (∀ d, contnr_w.mol_orig_frm_inp_smi.genealogy.head? = some d →
        m_w.genealogy.head? = some d) :=
  protonation_lineage_spec protonate_w addH_w contnr_w ps_w addH_mols_w m_w
    rfl (by decide)

/-- Claim C9: in `add_hydrogens`, after the fallback loop every container
is represented by at least one candidate in the list handed to diversity
selection; every container position the dispatch left unrepresented gets
exactly the fallback molecule — the container's unmodified original
molecule, re-pointed at the container and carrying the three-entry warning
genealogy — appended to the results; and `add_hydrogens` itself is the
diversity selector applied to precisely that patched list. -/
theorem add_hydrogens_fallback_spec
    (bst : List MolContainer → List MyMol → Nat → Nat → List MolContainer)
    (protonate : ProtSettings → String → List String)
    (mkAddH : String → Option MyMol) (mn mx sd : ℚ) (mv th : Nat)
    (contnrs : List MolContainer) :
    (∀ i, i < contnrs.length →
      ∃ m ∈ add_hydrogens_results protonate mkAddH
          { min_ph := mn, max_ph := mx, st_dev := sd } contnrs,
        m.contnr_idx = i)
    ∧ (∀ i ∈ fnd_contnrs_not_represntd contnrs
          (dispatch_add_H protonate mkAddH
            { min_ph := mn, max_ph := mx, st_dev := sd } contnrs),
        fallback_mol contnrs i ∈ add_hydrogens_results protonate mkAddH
            { min_ph := mn, max_ph := mx, st_dev := sd } contnrs
        ∧ (fallback_mol contnrs i).contnr_idx = i
        ∧ (fallback_mol contnrs i).genealogy
            = fallback_genealogy ((contnrs.getD i default).mol_orig_frm_inp_smi)
        ∧ (fallback_mol contnrs i).smiles_noarg
            = ((contnrs.getD i default).mol_orig_frm_inp_smi).smiles_noarg)
    ∧ add_hydrogens bst protonate mkAddH mn mx sd mv th contnrs
        = bst contnrs (add_hydrogens_results protonate mkAddH
            { min_ph := mn, max_ph := mx, st_dev := sd } contnrs) mv th := by
  refine ⟨?_, ?_, rfl⟩
  · intro i hi
    by_cases hrep : (dispatch_add_H protonate mkAddH
        { min_ph := mn, max_ph := mx, st_dev := sd } contnrs).any
        (fun m => m.contnr_idx == i) = true
    · obtain ⟨m, hmmem, hmi⟩ := List.any_eq_true.mp hrep
      exact ⟨m, List.mem_append_left _ hmmem, by simpa using hmi⟩
    · have hifnd : i ∈ fnd_contnrs_not_represntd contnrs
          (dispatch_add_H protonate mkAddH
            { min_ph := mn, max_ph := mx, st_dev := sd } contnrs) := by
        unfold fnd_contnrs_not_represntd
        rw [List.mem_filter]
        exact ⟨List.mem_range.mpr hi, by simp [hrep]⟩
      exact ⟨fallback_mol contnrs i,
        List.mem_append_right _ (List.mem_map_of_mem _ hifnd), rfl⟩
  · intro i hifnd
    exact ⟨List.mem_append_right _ (List.mem_map_of_mem _ hifnd),
      rfl, rfl, rfl⟩
